import Mathlib

/-!
Verification of the bumper XMPP server (`src/bumper/xmppserver.py`).

This file gives a shallow embedding of the per-connection session state
machine, the SASL PLAIN authentication handler, and the stanza routing of
`XMPPAsyncClient`, and proves or refutes the frozen claims about them.

Modelling conventions:
* Python strings are modelled by `String`; the character-level operations
  (`split`, `find`, `replace`, substring tests, slicing) are implemented
  over `List Char` with the exact semantics of the corresponding Python
  string methods.
* External collaborators (the credentials store `check_authcode`,
  `bot_get`, `client_get`, the `use_auth` flag, and the UUID generator)
  are parameters of the model, bundled in `Env`; calls to the mutating
  store functions (`bot_add`, `client_add`, `bot_set_xmpp`,
  `client_set_xmpp`) and every `send` are recorded as effects in the
  handlers' results.
* Python's pervasive `try/except` blocks that swallow exceptions are
  modelled by returning the effects accumulated up to the raising
  statement and leaving the session unchanged from that point on.
-/

namespace Bumper

/-! ## Character-list string primitives (Python semantics) -/

/-- Python `s.split(sep)` for a one-character separator: splits on every
occurrence, keeping empty fields; always returns at least one field. -/
def splitChar (sep : Char) : List Char → List (List Char)
  | [] => [[]]
  | c :: rest =>
    let r := splitChar sep rest
    if c = sep then [] :: r
    else (c :: r.headD []) :: r.tail

/-- Python `hay.find(pat)` restricted to the found case: index of the first
occurrence of `pat` in `hay`, `none` when absent (Python returns `-1`). -/
def findSub : List Char → List Char → Option Nat
  | [], pat => if pat.isPrefixOf ([] : List Char) then some 0 else none
  | h :: t, pat =>
    if pat.isPrefixOf (h :: t) then some 0
    else (findSub t pat).map (· + 1)

/-- Fuel-driven core of Python `s.replace(pat, rep)`: replaces every
non-overlapping occurrence left to right, never rescanning the
replacement text. The fuel is an upper bound on the scanning steps. -/
def replaceFuel (rep pat : List Char) : Nat → List Char → List Char
  | 0, l => l
  | _ + 1, [] => []
  | fuel + 1, c :: rest =>
    if pat.isPrefixOf (c :: rest) then
      rep ++ replaceFuel rep pat fuel ((c :: rest).drop pat.length)
    else
      c :: replaceFuel rep pat fuel rest

/-- Python `s.replace(pat, rep)` for a non-empty pattern (every pattern the
source uses is non-empty). -/
def replaceAll (l pat rep : List Char) : List Char :=
  if pat = [] then l else replaceFuel rep pat l.length l

/-- Python `s.replace(pat, rep)` at `String` level. -/
def strReplace (s pat rep : String) : String :=
  String.mk (replaceAll s.toList pat.toList rep.toList)

/-- `occursIn pat hay` holds when `pat` occurs contiguously in `hay`
(the semantics of Python's `pat in hay` on strings). -/
def occursIn (pat : List Char) : List Char → Bool
  | [] => pat.isEmpty
  | h :: t => pat.isPrefixOf (h :: t) || occursIn pat t

/-- Python `needle in hay` (substring test). -/
def containsStr (hay needle : String) : Bool :=
  occursIn needle.toList hay.toList

/-- Python `s.startswith(pre)`. -/
def startsWithStr (s pre : String) : Bool :=
  pre.toList.isPrefixOf s.toList

/-- Python `s.lower()` (ASCII case folding suffices for the data the
server handles). -/
def strLower (s : String) : String :=
  String.mk (s.toList.map Char.toLower)

/-- Python `str(x)` applied to an `Optional[str]`: `None` formats as the
four-character string `None` (as `str.format` does in the source). -/
def pyStr : Option String → String
  | some s => s
  | none => "None"

/-- The NUL character used as the SASL PLAIN field separator. -/
def nulChar : Char := Char.ofNat 0

/-- An ASCII apostrophe (single quote), kept out of string literals. -/
def sq : String := String.mk [Char.ofNat 39]

/-! ## Data model -/

/-- One `XMPPAsyncClient` instance: the per-connection session.
`type` is the peer kind (`UNKNOWN = 0`, `BOT = 1`, `CONTROLLER = 2`) and
`state` the state-machine index (`IDLE = 0` .. `DISCONNECT = 5`), both
kept as `Nat` exactly as the Python class attributes define them. -/
structure Session where
  type : Nat
  state : Nat
  uid : String
  devclass : String
  clientresource : String
  bumper_jid : String
  name : String
  tlsUpgraded : Bool
deriving DecidableEq

/-- State-machine constants of `XMPPAsyncClient`. -/
def IDLE : Nat := 0

/-- `CONNECT = 1`. -/
def CONNECT : Nat := 1

/-- `INIT = 2`. -/
def INIT : Nat := 2

/-- `BIND = 3`. -/
def BIND : Nat := 3

/-- `READY = 4`. -/
def READY : Nat := 4

/-- `DISCONNECT = 5`. -/
def DISCONNECT : Nat := 5

/-- Peer-kind constant `UNKNOWN = 0`. -/
def UNKNOWN : Nat := 0

/-- Peer-kind constant `BOT = 1`. -/
def BOT : Nat := 1

/-- Peer-kind constant `CONTROLLER = 2`. -/
def CONTROLLER : Nat := 2

/-- `XMPPServer.server_id`. -/
def server_id : String := "ecouser.net"

/-- A parsed XML element as `xml.etree.ElementTree` presents it: tag,
attributes in insertion order, optional text, and child elements. -/
inductive XmlElem where
  | mk (tag : String) (attrs : List (String × String)) (text : Option String)
       (children : List XmlElem)

/-- Tag of an element. -/
def XmlElem.tag : XmlElem → String
  | .mk t _ _ _ => t

/-- Attribute list of an element. -/
def XmlElem.attrs : XmlElem → List (String × String)
  | .mk _ a _ _ => a

/-- Text of an element. -/
def XmlElem.text : XmlElem → Option String
  | .mk _ _ tx _ => tx

/-- Children of an element. -/
def XmlElem.children : XmlElem → List XmlElem
  | .mk _ _ _ c => c

/-- Python `xml.get(key)`: first attribute with the given name. -/
def XmlElem.get (x : XmlElem) (k : String) : Option String :=
  (x.attrs.find? (fun p => p.1 = k)).map Prod.snd

/-- The external collaborators consumed by the server, specified only at
their interface boundary: the configuration flag `use_auth`, the
credential check, the two store lookups used at bind time (returning the
stored `did` resp. `resource`), and the UUID generator (`uuid.uuid4()`
rendered as a string; successive calls get successive indices). -/
structure Env where
  use_auth : Bool
  check_authcode : String → String → Bool
  bot_get : String → Option String
  client_get : String → Option String
  uuid : Nat → String

/-- Effects of `_handle_sasl_auth`, in program order: registrations in the
external identity store and stanzas written to the session's own
transport. -/
inductive AuthEffect where
  | botAdd (uid did devclass resource company : String)
  | clientAdd (userid realm resource : String)
  | send (msg : String)
deriving DecidableEq

/-- Writes to the external credentials store recorded by `_handle_bind`. -/
inductive DbEffect where
  | botSetXmpp (did : String) (online : Bool)
  | clientSetXmpp (resource : String) (online : Bool)
deriving DecidableEq

/-- Output of the routing handlers: stanzas written back to the
originating session (`self.send(...)` calls, in order), stanzas forwarded
to peer sessions (`client.send(...)` calls, in order, with the recipient
session recorded), and store writes. -/
structure RouteOut where
  replies : List String
  forwards : List (Session × String)
  dbWrites : List DbEffect
deriving DecidableEq

/-- The empty routing output. -/
def RouteOut.none : RouteOut := ⟨[], [], []⟩

/-! ## Literal stanzas the server writes (from the source's format strings) -/

/-- The `feature-not-implemented` error reply of `_handle_ctl`. -/
def err501 (id : Option String) : String :=
  "<iq type=\"error\" id=\"" ++ pyStr id ++
  "\"><error type=\"cancel\" code=\"501\"><feature-not-implemented xmlns=\"urn:ietf:params:xml:ns:xmpp-stanzas\"/></error></iq>"

/-- The acknowledgement `_handle_ctl` sends for a `com:sf` set directed at
`rl.ecorobot.net`. -/
def rlAck (id : Option String) (uid resource : String) : String :=
  "<iq id=\"" ++ pyStr id ++ "\" to=\"" ++ uid ++ "@" ++ server_id ++ "/" ++
  resource ++ "\" from=\"rl.ecorobot.net\" type=\"result\"/>"

/-- SASL success stanza. -/
def successMsg : String := "<success xmlns=\"urn:ietf:params:xml:ns:xmpp-sasl\"/>"

/-- The (non-standard) SASL failure reply: an empty response stanza. -/
def responseMsg : String := "<response xmlns=\"urn:ietf:params:xml:ns:xmpp-sasl\"/>"

/-- The raw-text marker `errno='103'` the router looks for (the apostrophes
are written via `sq`). -/
def errno103 : String := "errno=" ++ sq ++ "103" ++ sq

/-- The error-string prefix stripped when extracting the admin user. -/
def permDenied : String := "permission denied, please contact "

/-- The synthesized `AddUser` stanza of the auto-enrollment sequence. -/
def addUserMsg (id adminuser jid newuser : String) : String :=
  "<iq type=\"set\" id=\"" ++ id ++ "\" from=\"" ++ adminuser ++ "\" to=\"" ++ jid ++
  "\"><query xmlns=\"com:ctl\"><ctl td=\"AddUser\" id=\"0000\" jid=\"" ++ newuser ++
  "\" /></query></iq>"

/-- The synthesized `SetAC` stanza granting `userman`, `setting`, `clean`. -/
def setAcMsg (id adminuser jid newuser : String) : String :=
  "<iq type=\"set\" id=\"" ++ id ++ "\" from=\"" ++ adminuser ++ "\" to=\"" ++ jid ++
  "\"><query xmlns=\"com:ctl\"><ctl td=\"SetAC\" id=\"1111\" jid=\"" ++ newuser ++
  "\"><acs><ac name=\"userman\" allow=\"1\"/><ac name=\"setting\" allow=\"1\"/><ac name=\"clean\" allow=\"1\"/></acs></ctl></query></iq>"

/-- The synthesized `GetUserInfo` stanza closing the enrollment sequence. -/
def getUserInfoMsg (id adminuser jid : String) : String :=
  "<iq type=\"set\" id=\"" ++ id ++ "\" from=\"" ++ adminuser ++ "\" to=\"" ++ jid ++
  "\"><query xmlns=\"com:ctl\"><ctl td=\"GetUserInfo\" id=\"4444\" /><UserInfos/></query></iq>"

/-! ## XML serialization and namespace cleanup

`ET.tostring` is external; `serialize` is its stand-in for the element
trees the server forwards (attributes in insertion order, text before
children, self-closing form for empty elements). The namespace-prefix
artifacts `ET` can introduce (`xmlns:ns0=`, `ns0:`) never arise here, but
the source's post-hoc `replace` cleanup is modelled exactly. -/

/-- Renders an attribute list as `ET.tostring` does. -/
def attrsString : List (String × String) → String
  | [] => ""
  | (k, v) :: rest => " " ++ k ++ "=\"" ++ v ++ "\"" ++ attrsString rest

/-- Depth-bounded element serializer (the server's stanzas are at most a
few levels deep; the bound is never reached). -/
def serializeFuel : Nat → XmlElem → String
  | 0, _ => ""
  | n + 1, x =>
    let inner :=
      (match x.text with | some t => t | none => "") ++
      String.join (x.children.map (serializeFuel n))
    if inner = "" then "<" ++ x.tag ++ attrsString x.attrs ++ " />"
    else "<" ++ x.tag ++ attrsString x.attrs ++ ">" ++ inner ++ "</" ++ x.tag ++ ">"

/-- Stand-in for `ET.tostring(xml).decode("utf-8")`. -/
def serialize (x : XmlElem) : String := serializeFuel 16 x

/-- The four `replace` calls cleaning a forwarded `com:ctl` stanza. -/
def cleanupCtl (s : String) : String :=
  let s := strReplace s "xmlns:ns0=" "xmlns="
  let s := strReplace s "ns0:" ""
  let s := strReplace s "iq xmlns=\"com:ctl\"" "iq"
  strReplace s "<query" "<query xmlns=\"com:ctl\""

/-- The four `replace` calls cleaning a forwarded ping stanza. -/
def cleanupPing (s : String) : String :=
  let s := strReplace s "xmlns:ns0=" "xmlns="
  let s := strReplace s "ns0:" ""
  let s := strReplace s "iq xmlns=\"urn:xmpp:ping\"" "iq"
  strReplace s "<ping" "<ping xmlns=\"urn:xmpp:ping\""

/-- `xml.attrib["from"] = self.bumper_jid` guarded by
`"from" not in xml.attrib` (ET appends new attributes at the end). -/
def setFromIfAbsent (x : XmlElem) (jid : String) : XmlElem :=
  if (x.get "from").isSome then x
  else .mk x.tag (x.attrs ++ [("from", jid)]) x.text x.children

/-! ## The session state machine -/

/-- `getattr(XMPPAsyncClient, state)` for the state names `set_state` is
called with; any other attribute name raises and is swallowed. -/
def stateVal : String → Option Nat
  | "IDLE" => some 0
  | "CONNECT" => some 1
  | "INIT" => some 2
  | "BIND" => some 3
  | "READY" => some 4
  | "DISCONNECT" => some 5
  | _ => none

/-- `XMPPAsyncClient.set_state`. A transition to a numerically lower state
raises inside the handler's own `try`, whose `except` merely logs: the
state is left unchanged and `_disconnect` is not run. The returned flag
records whether `_disconnect()` was invoked (the `new_state == 5` case). -/
def set_state (s : Session) (st : String) : Session × Bool :=
  match stateVal st with
  | Option.none => (s, false)
  | some n =>
    if s.state > n then (s, false)
    else ({ s with state := n }, n == 5)

/-- Case-insensitive substring match used by the router:
`client.uid.lower() in to.lower()`. -/
def uidMatches (uid toStr : String) : Bool :=
  containsStr (strLower toStr) (strLower uid)

/-! ## Routing handlers -/

/-- The early-return guard of `_handle_ctl`: a bot stanza whose first
`ctl` child carries a truthy `admin` attribute is logged and dropped. -/
def ctlAdminAbort (s : Session) (q : XmlElem) : Bool :=
  match q.children.head? with
  | some ctl =>
    (match ctl.get "admin" with
     | some a => (a != "") && (s.type == BOT)
     | Option.none => false)
  | Option.none => false

/-- `XMPPAsyncClient._handle_ctl`: a `com:ctl` query from a controller.
The `rl.ecorobot.net` acknowledgement branch does not return; the forward
loop still runs after it. An `iq` without children raises `IndexError` at
`xml[0]`, swallowed after any acknowledgement already sent. -/
def handle_ctl (s : Session) (clients : List Session) (xml : XmlElem)
    (data : String) : RouteOut :=
  if containsStr data "roster" then ⟨[err501 (xml.get "id")], [], []⟩
  else if containsStr data "disco#items" then ⟨[err501 (xml.get "id")], [], []⟩
  else if containsStr data "disco#info" then ⟨[err501 (xml.get "id")], [], []⟩
  else
    let acks : List String :=
      if xml.get "type" = some "set" ∧ containsStr data "com:sf" ∧
          xml.get "to" = some "rl.ecorobot.net"
      then [rlAck (xml.get "id") s.uid s.clientresource] else []
    match xml.children.head? with
    | Option.none => ⟨acks, [], []⟩
    | some q =>
      if ctlAdminAbort s q then ⟨acks, [], []⟩
      else
        let rx := cleanupCtl (serialize (setFromIfAbsent xml s.bumper_jid))
        ⟨acks,
         clients.filterMap (fun c =>
           if c.bumper_jid ≠ s.bumper_jid ∧ c.state = READY then
             match xml.get "to" with
             | some t =>
               if c.type = BOT ∧ t ≠ "" ∧ uidMatches c.uid t then some (c, rx)
               else Option.none
             | Option.none => Option.none
           else Option.none),
         []⟩

/-- `XMPPAsyncClient._handle_ping`: a ping whose `to` has no `@` addresses
the server and is answered directly; otherwise the ping is cleaned up and
forwarded to matching READY peers. -/
def handle_ping (s : Session) (clients : List Session) (xml : XmlElem) : RouteOut :=
  let fwd : String → RouteOut := fun t =>
    let px := cleanupPing (serialize (setFromIfAbsent xml s.bumper_jid))
    ⟨[],
     clients.filterMap (fun c =>
       if c.bumper_jid ≠ s.bumper_jid ∧ c.state = READY ∧ t ≠ "" ∧
           uidMatches c.uid t then some (c, px) else Option.none),
     []⟩
  match xml.get "to" with
  | some t =>
    if t ≠ "" ∧ ¬ containsStr t "@" then
      ⟨["<iq type=\"result\" id=\"" ++ pyStr (xml.get "id") ++ "\" from=\"" ++ t
        ++ "\" />"], [], []⟩
    else fwd t
  | Option.none => ⟨[], [], []⟩

/-- The literal char-list of `@ecouser.net`, used when `_handle_result`
rewrites a destination that carries an `@`. -/
def ecouserSuffix : List Char := '@' :: ("ecouser.net".toList)

/-- `"{}@ecouser.net".format(ctl_to.split("@")[0])`: the destination
rewrite `_handle_result` applies to a `to` that carries an `@`. -/
def normalizedDest (t : String) : String :=
  String.mk ((splitChar '@' t.toList).headD [] ++ ecouserSuffix)

/-- `ctlerr.replace("permission denied, please contact ", "").replace(" ", "")`:
the admin user extracted from the bot's error string. -/
def adminFromError (err : String) : String :=
  strReplace (strReplace err permDenied "") " " ""

/-- `ctl_to.split("/")[0]`: the user to enroll, derived from the stanza's
`to`. -/
def newUserOf (t : String) : String :=
  String.mk ((splitChar '/' t.toList).headD [])

/-- The `errno='103'` auto-enrollment branch of `_handle_result`: the
stanzas written to the bot's own transport (empty when the structure is
missing — a swallowed `IndexError`/`NameError` — or when the skip
condition on the admin user or `use_auth` holds, or when `assert`-falsy
`ctl_to` fails the guard). -/
def enroll103 (env : Env) (s : Session) (xml : XmlElem) (ctl_to : Option String) :
    List String :=
  match xml.children.head? with
  | Option.none => []
  | some q =>
    match q.children.head? with
    | Option.none => []
    | some c0 =>
      match (match c0.get "error" with
             | some err => some (adminFromError err)
             | Option.none => c0.get "admin") with
      | Option.none => []
      | some adminuser =>
        match ctl_to with
        | some t =>
          if t ≠ "" ∧ ¬ (startsWithStr adminuser "fuid_" ∨
              startsWithStr adminuser "fusername_" ∨ env.use_auth) then
            [addUserMsg (env.uuid 0) adminuser s.bumper_jid (newUserOf t),
             setAcMsg (env.uuid 1) adminuser s.bumper_jid (newUserOf t),
             getUserInfoMsg (env.uuid 2) adminuser s.bumper_jid]
          else []
        | Option.none => []

/-- `XMPPAsyncClient._handle_result`: bot results and `type=result`/`set`
stanzas. The `errno='103'` branch synthesizes the auto-enrollment triple
on the bot's own transport (replies); otherwise the stanza is forwarded —
to every session unconditionally when a bot addresses `de.ecorobot.net`,
then to READY non-originator peers: all of them when the destination has
no `@`, else those whose lowercased `uid` occurs in the lowercased
destination rewritten to `{localpart}@ecouser.net`.  A missing or empty
`to` fails the `assert ctl_to` and stops after the broadcast. -/
def handle_result (env : Env) (s : Session) (clients : List Session)
    (xml : XmlElem) (data : String) : RouteOut :=
  let ctl_to := xml.get "to"
  let xmlF := setFromIfAbsent xml s.bumper_jid
  if containsStr data errno103 then
    if s.type = BOT then ⟨enroll103 env s xml ctl_to, [], []⟩
    else RouteOut.none
  else
    let rx := cleanupCtl (serialize xmlF)
    let bcast :=
      if s.type = BOT ∧ ctl_to = some "de.ecorobot.net" then
        clients.map (fun c => (c, rx))
      else []
    let ctlTo2 : Option String :=
      match ctl_to with
      | some t =>
        if t ≠ "" ∧ ¬ containsStr t "@" then some t
        else if t ≠ "" then some (normalizedDest t)
        else Option.none
      | Option.none => Option.none
    match ctlTo2 with
    | Option.none => ⟨[], bcast, []⟩
    | some ct =>
      ⟨[],
       bcast ++ clients.filterMap (fun c =>
         if c.bumper_jid ≠ s.bumper_jid ∧ c.state = READY then
           if ¬ containsStr ct "@" then some (c, rx)
           else if uidMatches c.uid ct then some (c, rx)
           else Option.none
         else Option.none),
       []⟩

/-! ## SASL PLAIN authentication -/

/-- `base64.b64decode(xml.text).decode("utf-8").split("/")`: the decoded
payload split on slashes (base64 itself is external; the model takes the
decoded text). -/
def saslSlash (payload : String) : List (List Char) :=
  splitChar '/' payload.toList

/-- `saslauth[0].split("\x00")`: the first slash field split on NUL. -/
def saslParts0 (payload : String) : List (List Char) :=
  splitChar nulChar ((saslSlash payload).headD [])

/-- `saslauth[0].split("\x00")[1]`: the authcid recorded as `uid`
(meaningful only when `saslParts0` has at least two fields). -/
def saslUid (payload : String) : String :=
  String.mk ((saslParts0 payload).getD 1 [])

/-- The authcode: the third slash field when there is one, else the empty
string (note: NUL-delimited payloads never set it). -/
def saslAuthcode (payload : String) : String :=
  if 2 < (saslSlash payload).length then String.mk ((saslSlash payload).getD 2 [])
  else ""

/-- The client resource as `_handle_sasl_auth` records it: the second
slash field, else the third NUL field, else the previous value. -/
def saslResource (s : Session) (payload : String) : String :=
  if 1 < (saslSlash payload).length then String.mk ((saslSlash payload).getD 1 [])
  else if 2 < (saslParts0 payload).length then
    String.mk ((saslParts0 payload).getD 2 [])
  else s.clientresource

/-- `XMPPAsyncClient._handle_sasl_auth` over the decoded payload. A
payload whose first slash field has no NUL raises `IndexError` before any
field of the session is written; the handler's `except` swallows it and
nothing is sent. -/
def handle_sasl_auth (env : Env) (s : Session) (payload : String) :
    Session × List AuthEffect :=
  if (saslParts0 payload).length < 2 then (s, [])
  else
    let uid := saslUid payload
    let res := saslResource s payload
    let authcode := saslAuthcode payload
    let s1 := { s with uid := uid, clientresource := res }
    if s.devclass ≠ "" then
      let s2 := { s1 with type := BOT }
      ((set_state s2 "INIT").1,
       [AuthEffect.botAdd uid uid s.devclass "atom" "eco-legacy",
        AuthEffect.send successMsg])
    else
      let auth := env.check_authcode uid authcode || !env.use_auth
      if auth then
        let s2 := { s1 with type := CONTROLLER }
        ((set_state s2 "INIT").1,
         [AuthEffect.clientAdd uid "bumper" res, AuthEffect.send successMsg])
      else (s1, [AuthEffect.send responseMsg])

/-! ## Bind, session, and iq dispatch -/

/-- The bind result stanza. -/
def bindResult (id : Option String) (jid : String) : String :=
  "<iq type=\"result\" id=\"" ++ pyStr id ++
  "\"><bind xmlns=\"urn:ietf:params:xml:ns:xmpp-bind\"><jid>" ++ jid ++
  "</jid></bind></iq>"

/-- `XMPPAsyncClient._handle_bind`. The store lookups run first; a bind
`iq` without children raises `IndexError` afterwards; an empty or missing
resource text fails `assert clientresourcexml[0].text`. The session
`name` in the resourceless controller case omits the source's address
suffix (transport metadata is not modelled). -/
def handle_bind (env : Env) (s : Session) (xml : XmlElem) : Session × RouteOut :=
  let dbw : List DbEffect :=
    (match env.bot_get s.uid with
     | some did => [DbEffect.botSetXmpp did true]
     | Option.none => []) ++
    (match env.client_get s.clientresource with
     | some r => [DbEffect.clientSetXmpp r true]
     | Option.none => [])
  match xml.children.head? with
  | Option.none => (s, ⟨[], [], dbw⟩)
  | some bindEl =>
    if s.devclass ≠ "" then
      let jid := s.uid ++ "@" ++ s.devclass ++ ".ecorobot.net/atom"
      let s1 := { s with bumper_jid := jid,
                         name := "XMPP_Client_" ++ s.uid ++ "_" ++ s.devclass }
      ((set_state s1 "BIND").1, ⟨[bindResult (xml.get "id") jid], [], dbw⟩)
    else
      match bindEl.children.head? with
      | some resEl =>
        match resEl.text with
        | Option.none => (s, ⟨[], [], dbw⟩)
        | some rtext =>
          if rtext = "" then (s, ⟨[], [], dbw⟩)
          else
            let jid := s.uid ++ "@" ++ server_id ++ "/" ++ rtext
            let s1 := { s with clientresource := rtext,
                               name := "XMPP_Client_" ++ rtext, bumper_jid := jid }
            ((set_state s1 "BIND").1, ⟨[bindResult (xml.get "id") jid], [], dbw⟩)
      | Option.none =>
        let jid := s.uid ++ "@" ++ server_id
        let s1 := { s with bumper_jid := jid, name := "XMPP_Client_" ++ s.uid }
        ((set_state s1 "BIND").1, ⟨[bindResult (xml.get "id") jid], [], dbw⟩)

/-- `XMPPAsyncClient._handle_session`: move to READY and acknowledge (the
spawned ping task is asynchronous output, not modelled). -/
def handle_session (s : Session) (xml : XmlElem) : Session × RouteOut :=
  ((set_state s "READY").1,
   ⟨["<iq type=\"result\" id=\"" ++ pyStr (xml.get "id") ++ "\" />"], [], []⟩)

/-- `XMPPAsyncClient._tag_strip_uri`: drop a leading `{uri}` namespace
wrapper (Python's `partition` yields the empty string when `}` is absent;
an empty tag raises `IndexError`, caught, and is returned unchanged). -/
def tag_strip_uri (t : String) : String :=
  match t.toList with
  | '{' :: rest =>
    match findSub rest ['}'] with
    | some i => String.mk (rest.drop (i + 1))
    | Option.none => ""
  | _ => t

/-- The child tag `_handle_iq` dispatches on. -/
def childTag (xml : XmlElem) : Option String :=
  match xml.children.head? with
  | some c => some (tag_strip_uri c.tag)
  | Option.none => Option.none

/-- The dispatch targets of `_handle_iq`. -/
inductive IqBranch where
  | bindB
  | sessionB
  | pingB
  | queryB
  | resultSetB
  | noneB
deriving DecidableEq

/-- Branch selection of `_handle_iq`: a function of the stanza alone (its
child tag and `type` attribute) — the session's state, kind, and identity
play no part in it. -/
def iqBranch (xml : XmlElem) : IqBranch :=
  if xml.tag ≠ "iq" then .noneB
  else
    match childTag xml with
    | some "bind" => .bindB
    | some "session" => .sessionB
    | some "ping" => .pingB
    | some "query" => .queryB
    | _ =>
      if xml.get "type" = some "result" then .resultSetB
      else if xml.get "type" = some "set" then .resultSetB
      else .noneB

/-- `XMPPAsyncClient._handle_iq`. -/
def handle_iq (env : Env) (s : Session) (clients : List Session)
    (xml : XmlElem) (data : String) : Session × RouteOut :=
  match iqBranch xml with
  | .bindB => handle_bind env s xml
  | .sessionB => handle_session s xml
  | .pingB => (s, handle_ping s clients xml)
  | .queryB =>
    if s.type = BOT then (s, handle_result env s clients xml data)
    else (s, handle_ctl s clients xml data)
  | .resultSetB => (s, handle_result env s clients xml data)
  | .noneB => (s, RouteOut.none)

/-! ## Stream-open handling and the parse-error dispatch of `parse_data` -/

/-- The stream header acknowledging a `jabber:client` stream open. -/
def streamHeader : String :=
  "<stream:stream xmlns:stream=\"http://etherx.jabber.org/streams\" xmlns=\"jabber:client\" version=\"1.0\" id=\"1\" from=\""
  ++ server_id ++ "\">"

/-- Features offered pre-TLS. -/
def featuresStartTls : String :=
  "<stream:features><starttls xmlns=\"urn:ietf:params:xml:ns:xmpp-tls\"><required/></starttls><mechanisms xmlns=\"urn:ietf:params:xml:ns:xmpp-sasl\"><mechanism>PLAIN</mechanism></mechanisms></stream:features>"

/-- Features offered after the TLS upgrade. -/
def featuresSaslOnly : String :=
  "<stream:features><mechanisms xmlns=\"urn:ietf:params:xml:ns:xmpp-sasl\"><mechanism>PLAIN</mechanism></mechanisms></stream:features>"

/-- Features offered on the post-auth stream re-open. -/
def featuresBindSession : String :=
  "<stream:features><bind xmlns=\"urn:ietf:params:xml:ns:xmpp-bind\"/><session xmlns=\"urn:ietf:params:xml:ns:xmpp-session\"/></stream:features>"

/-- `XMPPAsyncClient._handle_connect` (always called with `xml=None` in
the source): acknowledge a stream open, extracting `devclass` from the
`to="….ecorobot.net"` slice in CONNECT state. -/
def handle_connect_raw (s : Session) (newdata : String) : Session × List String :=
  if s.state = CONNECT then
    if containsStr newdata "jabber:client" then
      let sc : Nat :=
        match findSub newdata.toList ("to=".toList) with
        | some n => n + 4
        | Option.none => 3
      let s1 :=
        match findSub newdata.toList (".ecorobot.net".toList) with
        | some ec => { s with devclass := String.mk ((newdata.toList.drop sc).take (ec - sc)) }
        | Option.none => s
      (s1, [streamHeader, if s.tlsUpgraded then featuresSaslOnly else featuresStartTls])
    else (s, ["</stream>"])
  else if s.state = INIT then
    if containsStr newdata "jabber:client" then (s, [streamHeader, featuresBindSession])
    else (s, [])
  else (s, [])

/-- Drop up to and past the first `>` (the extent of the `<?xml … ?>`
declaration `re.sub` removes, whose body cannot contain `>`). -/
def dropPastGt : List Char → List Char
  | [] => []
  | '>' :: rest => rest
  | _ :: rest => dropPastGt rest

/-- Fuel-driven replacement of every `<?xml…>` declaration by `<root>`. -/
def stripXmlDecl : Nat → List Char → List Char
  | 0, l => l
  | _ + 1, [] => []
  | fuel + 1, c :: rest =>
    if ("<?xml".toList).isPrefixOf (c :: rest) then
      ("<root>".toList) ++ stripXmlDecl fuel (dropPastGt (c :: rest))
    else c :: stripXmlDecl fuel rest

/-- The synthetic-root wrapping `parse_data` applies to every chunk. -/
def mk_newdata (chunk : String) : String :=
  if startsWithStr chunk "<?xml" then
    String.mk (stripXmlDecl chunk.toList.length chunk.toList) ++ "</root>"
  else "<root>" ++ chunk ++ "</root>"

/-- The `except ET.ParseError` dispatch of `XMPPAsyncClient.parse_data`:
branches on the parser's error message (`e.msg`), which is external input
to the model. -/
def parse_data_onParseError (s : Session) (chunk : String) (emsg : String) :
    Session × List String :=
  let newdata := mk_newdata chunk
  if containsStr emsg "no element found" then
    if containsStr newdata "<stream:stream " then
      if s.state = CONNECT ∨ s.state = INIT then handle_connect_raw s newdata
      else (s, [])
    else (s, [])
  else if containsStr emsg "not well-formed (invalid token)" then
    if ¬ containsStr newdata "</stream:stream>" then (s, [])
    else (s, ["</stream:stream>"])
  else
    if containsStr newdata "<stream:stream" then
      if s.state = CONNECT ∨ s.state = INIT then handle_connect_raw s newdata
      else (s, [])
    else if ¬ containsStr newdata "</stream:stream>" then (s, [])
    else ((set_state s "DISCONNECT").1, ["</stream:stream>"])

/-! ## Definitions following the spec's words (for refutation only)

These do NOT model the source; each follows the natural-language claim it
is named after, so that the claim can be compared with the code's
behaviour. -/

/-- Modelled from the spec's words (claim C2): the destination is the `to`
attribute, normalized to `{to}@ecouser.net` when it has no `@`, and the
stanza is delivered exactly to the READY sessions other than the
originator whose lowercased `uid` is a substring of the lowercased
destination. -/
def claimedResultDests (s : Session) (clients : List Session) (toAttr : String) :
    List Session :=
  let dest := if containsStr toAttr "@" then toAttr else toAttr ++ "@ecouser.net"
  clients.filter (fun c =>
    (c.bumper_jid != s.bumper_jid) && (c.state == READY) && uidMatches c.uid dest)

/-- Modelled from the spec's words (claim C5): the authcode is the trailing
field of the decoded payload, for the slash-delimited and the
NUL-delimited forms alike. -/
def claimedAuthcode (payload : String) : String :=
  if 1 < (saslSlash payload).length then String.mk ((saslSlash payload).getLastD [])
  else String.mk ((saslParts0 payload).getLastD [])

/-- Modelled from the spec's words (claim C8): enrollment is skipped when
the new user derived from the stanza's `to` starts with `fuid_` or
`fusername_`, or when `use_auth` is enabled. -/
def claimedEnrollSkip (toAttr : String) (useAuth : Bool) : Bool :=
  startsWithStr (String.mk ((splitChar '/' toAttr.toList).headD [])) "fuid_"
  || startsWithStr (String.mk ((splitChar '/' toAttr.toList).headD [])) "fusername_"
  || useAuth

/-! ## Concrete instances used by counterexamples and witnesses -/

/-- An environment with authentication disabled and empty stores. -/
def exEnv : Env :=
  ⟨false, fun _ _ => false, fun _ => Option.none, fun _ => Option.none, fun _ => ""⟩

/-- An environment with `use_auth` enabled whose credentials store accepts
exactly `(alice, secret)`. -/
def exEnvAlice : Env :=
  ⟨true, fun u c => u == "alice" && c == "secret",
   fun _ => Option.none, fun _ => Option.none, fun _ => ""⟩

/-- An environment with auth disabled and a readable UUID generator. -/
def exEnvUuid : Env :=
  ⟨false, fun _ _ => false, fun _ => Option.none, fun _ => Option.none,
   fun n => "uuid-" ++ toString n⟩

/-- A freshly accepted session: CONNECT, kind UNKNOWN, no identity. -/
def freshSession : Session := ⟨UNKNOWN, CONNECT, "", "", "", "", "", false⟩

/-- A fresh session whose stream open carried `devclass = xyz`. -/
def exBotXyz : Session := ⟨UNKNOWN, CONNECT, "", "xyz", "", "", "", false⟩

/-- A READY bot session (originator in the routing examples). -/
def exReadyBot : Session := ⟨BOT, READY, "sn1", "x", "", "sn1@x.ecorobot.net/atom", "", false⟩

/-- A READY controller session with uid `zzz`. -/
def exPeerZzz : Session := ⟨CONTROLLER, READY, "zzz", "", "", "zzz@ecouser.net", "", false⟩

/-- A still-connecting session (state CONNECT, not READY). -/
def exPeerConnect : Session := ⟨CONTROLLER, CONNECT, "ctl1", "", "", "", "", false⟩

/-- A READY controller (originator of the `rl.ecorobot.net` example). -/
def exCtrl42 : Session :=
  ⟨CONTROLLER, READY, "user42", "", "mobile", "user42@ecouser.net/mobile", "", false⟩

/-- A READY bot whose uid `rl` occurs in `rl.ecorobot.net`. -/
def exRlBot : Session := ⟨BOT, READY, "rl", "x", "", "rl@x.ecorobot.net/atom", "", false⟩

/-- A READY session in state 4 used by the C1 and C7 instances. -/
def exReadyCtrl : Session := ⟨CONTROLLER, READY, "u", "", "", "u@ecouser.net", "", false⟩

/-- The SASL PLAIN payload `\0alice\0secret` (standard RFC 4616 form). -/
def exPayloadAlice : String :=
  String.mk (nulChar :: ("alice".toList ++ nulChar :: "secret".toList))

/-- The `com:sf` query element of the `rl.ecorobot.net` stanza. -/
def exQueryRl : XmlElem := .mk "query" [("xmlns", "com:sf")] Option.none []

/-- The `com:sf` set stanza directed at `rl.ecorobot.net`. -/
def exIqRl : XmlElem :=
  .mk "iq" [("id", "q1"), ("type", "set"), ("to", "rl.ecorobot.net")] Option.none
    [exQueryRl]

/-- Raw text of `exIqRl`. -/
def exDataRl : String :=
  "<iq id=\"q1\" type=\"set\" to=\"rl.ecorobot.net\"><query xmlns=\"com:sf\"/></iq>"

/-- A result stanza whose `to` (`alice`) has no `@`. -/
def exIqAlice : XmlElem :=
  .mk "iq" [("type", "result"), ("to", "alice"), ("id", "r9")] Option.none []

/-- A bot result addressed to `de.ecorobot.net` (the broadcast case). -/
def exIqDe : XmlElem :=
  .mk "iq" [("type", "result"), ("to", "de.ecorobot.net"), ("id", "b1")] Option.none []

/-- The `ctl` element of the permission-denied error response. -/
def exCtlErr : XmlElem :=
  .mk "ctl"
    [("td", "error"), ("error", "permission denied, please contact ownerA"),
     ("errno", "103")] Option.none []

/-- The `query` element wrapping `exCtlErr`. -/
def exQueryErr : XmlElem := .mk "query" [("xmlns", "com:ctl")] Option.none [exCtlErr]

/-- A bot error response carrying `errno='103'` whose originating `to`
names a `fuid_` user while the admin user is `ownerA`. -/
def exIqErr : XmlElem :=
  .mk "iq" [("type", "result"), ("to", "fuid_123@ecouser.net"), ("id", "e1")]
    Option.none [exQueryErr]

/-- Raw text of `exIqErr` (contains the `errno='103'` marker). -/
def exDataErr : String :=
  "<iq to=\"fuid_123@ecouser.net\"><query xmlns=\"com:ctl\"><ctl " ++ errno103 ++
  " /></query></iq>"

/-- The session-establishment stanza `<iq id="x" type="set"><session/></iq>`. -/
def exIqSession : XmlElem :=
  .mk "iq" [("id", "x"), ("type", "set")] Option.none [.mk "session" [] Option.none []]

/-! ## Helper lemmas -/

/-- `splitChar` never returns the empty list. -/
theorem splitChar_ne_nil (sep : Char) (l : List Char) : splitChar sep l ≠ [] := by
  cases l with
  | nil => simp [splitChar]
  | cons c rest =>
    simp only [splitChar]
    split <;> simp

/-- Splitting a list that does not contain the separator yields the list
itself as the single field. -/
theorem splitChar_of_not_mem {sep : Char} :
    ∀ {l : List Char}, sep ∉ l → splitChar sep l = [l] := by
  intro l
  induction l with
  | nil => intro _; rfl
  | cons c rest ih =>
    intro h
    have hc : c ≠ sep := fun hcs => h (hcs ▸ List.mem_cons_self c rest)
    have hr : sep ∉ rest := fun hm => h (List.mem_cons_of_mem c hm)
    simp only [splitChar, ih hr, if_neg hc]
    rfl

/-- Every character of the first field of a split occurs in the original
list. -/
theorem mem_of_mem_headD_splitChar {sep : Char} :
    ∀ {l : List Char} {c : Char}, c ∈ (splitChar sep l).headD [] → c ∈ l := by
  intro l
  induction l with
  | nil => intro c h; simp [splitChar] at h
  | cons x rest ih =>
    intro c h
    simp only [splitChar] at h
    by_cases hx : x = sep
    · rw [if_pos hx] at h
      simp at h
    · rw [if_neg hx] at h
      simp only [List.headD_cons, List.mem_cons] at h
      rcases h with h | h
      · exact h ▸ List.mem_cons_self x rest
      · exact List.mem_cons_of_mem x (ih h)

/-- A one-character pattern occurs in any list containing that character. -/
theorem occursIn_of_mem {c : Char} :
    ∀ {l : List Char}, c ∈ l → occursIn [c] l = true := by
  intro l
  induction l with
  | nil => intro h; simp at h
  | cons x rest ih =>
    intro h
    simp only [occursIn, Bool.or_eq_true]
    rcases List.mem_cons.mp h with h | h
    · left
      simp [List.isPrefixOf, h]
    · right
      exact ih h

/-- The rewritten destination `{localpart}@ecouser.net` always contains an
`@`. -/
theorem containsStr_normalizedDest (t : String) :
    containsStr (normalizedDest t) "@" = true := by
  have : '@' ∈ (splitChar '@' t.toList).headD [] ++ ecouserSuffix := by
    apply List.mem_append_right
    simp [ecouserSuffix]
  exact occursIn_of_mem this

/-- `set_state` on a non-decreasing transition updates the state field and
runs `_disconnect` exactly when the new state is `DISCONNECT`. -/
theorem set_state_step (s : Session) (st : String) (n : Nat)
    (hsv : stateVal st = some n) (hle : s.state ≤ n) :
    set_state s st = ({ s with state := n }, n == 5) := by
  unfold set_state
  rw [hsv]
  show (if s.state > n then (s, false) else ({ s with state := n }, n == 5)) = _
  rw [if_neg (by omega)]

/-- Mapping the recipient out of a guarded `filterMap` is a plain filter. -/
theorem map_fst_filterMap_guard {p : Session → Prop} [DecidablePred p]
    (l : List Session) (m : String) :
    ((l.filterMap (fun c => if p c then some (c, m) else Option.none)).map
        Prod.fst)
      = l.filter (fun c => decide (p c)) := by
  induction l with
  | nil => rfl
  | cons h t ih =>
    by_cases hp : p h <;>
      simp [List.filterMap_cons, List.filter_cons, hp, ih]

/-- The matching loop of `_handle_result` on a destination without an `@`
sends to every READY non-originator peer. -/
theorem result_loop_no_at (s : Session) (clients : List Session) (ct rx : String)
    (hct : containsStr ct "@" = false) :
    ((clients.filterMap (fun c =>
        if c.bumper_jid ≠ s.bumper_jid ∧ c.state = READY then
          if ¬ containsStr ct "@" then some (c, rx)
          else if uidMatches c.uid ct then some (c, rx) else Option.none
        else Option.none)).map Prod.fst)
      = clients.filter
          (fun c => decide (c.bumper_jid ≠ s.bumper_jid ∧ c.state = READY)) := by
  induction clients with
  | nil => rfl
  | cons h t ih =>
    simp only [List.filterMap_cons, List.filter_cons]
    by_cases hab : h.bumper_jid ≠ s.bumper_jid ∧ h.state = READY
    · rw [if_pos hab, if_pos (by rw [hct]; simp)]
      simp only [List.map_cons, ih, decide_eq_true_eq]
      rw [if_pos (by exact hab)]
    · rw [if_neg hab]
      simp only [ih, decide_eq_true_eq]
      rw [if_neg (by exact hab)]

/-- The matching loop of `_handle_result` on a destination with an `@`
sends to the READY non-originator peers whose lowercased uid occurs in
the lowercased destination. -/
theorem result_loop_at (s : Session) (clients : List Session) (ct rx : String)
    (hct : containsStr ct "@" = true) :
    ((clients.filterMap (fun c =>
        if c.bumper_jid ≠ s.bumper_jid ∧ c.state = READY then
          if ¬ containsStr ct "@" then some (c, rx)
          else if uidMatches c.uid ct then some (c, rx) else Option.none
        else Option.none)).map Prod.fst)
      = clients.filter
          (fun c => decide (c.bumper_jid ≠ s.bumper_jid ∧ c.state = READY ∧
            uidMatches c.uid ct = true)) := by
  induction clients with
  | nil => rfl
  | cons h t ih =>
    simp only [List.filterMap_cons, List.filter_cons]
    by_cases hab : h.bumper_jid ≠ s.bumper_jid ∧ h.state = READY
    · rw [if_pos hab, if_neg (by rw [hct]; simp)]
      by_cases hm : uidMatches h.uid ct = true
      · rw [if_pos hm]
        simp only [List.map_cons, ih, decide_eq_true_eq]
        rw [if_pos (by exact ⟨hab.1, hab.2, hm⟩)]
      · rw [if_neg hm]
        simp only [ih, decide_eq_true_eq]
        rw [if_neg (by intro hc; exact hm hc.2.2)]
    · rw [if_neg hab]
      simp only [ih, decide_eq_true_eq]
      rw [if_neg (by intro hc; exact hab ⟨hc.1, hc.2.1⟩)]

/-! ## Claim C1 -/

/-- Claim C1 as stated is false: a backwards transition (READY session
asked to move to CONNECT) does not force DISCONNECT and does not close
the session — `set_state` raises inside its own `try`, whose `except`
only logs; the state is left at READY and `_disconnect` is never run. -/
theorem C1_counterexample :
    stateVal "CONNECT" = some CONNECT ∧ exReadyCtrl.state = READY ∧
    set_state exReadyCtrl "CONNECT" = (exReadyCtrl, false) ∧
    ¬ ((set_state exReadyCtrl "CONNECT").1.state = DISCONNECT ∨
        (set_state exReadyCtrl "CONNECT").2 = true) := by
  refine ⟨by decide, by decide, by decide, by decide⟩

/-- Claim C1 (amended): the state index never decreases across
`set_state`; an attempted transition to a numerically lower state is
rejected — the session is returned unchanged with no disconnect — rather
than closing the session. -/
theorem C1_amended (s : Session) (st : String) :
    s.state ≤ (set_state s st).1.state ∧
    (∀ n, stateVal st = some n → n < s.state → set_state s st = (s, false)) := by
  constructor
  · unfold set_state
    cases hsv : stateVal st with
    | none => simp
    | some n =>
      by_cases hgt : s.state > n
      · simp [hgt]
      · simp only [if_neg hgt]
        omega
  · intro n hn hlt
    unfold set_state
    rw [hn]
    exact if_pos hlt

/-- Witness for `C1_amended` at a READY session asked to regress. -/
theorem C1_witness :
    exReadyCtrl.state ≤ (set_state exReadyCtrl "CONNECT").1.state ∧
    set_state exReadyCtrl "CONNECT" = (exReadyCtrl, false) :=
  ⟨(C1_amended exReadyCtrl "CONNECT").1,
   (C1_amended exReadyCtrl "CONNECT").2 1 (by decide) (by decide)⟩

/-! ## Claim C2 -/

/-- Claim C2 as stated is false: for a result stanza whose `to` is `alice`
(no `@`), the claim predicts the destination `alice@ecouser.net` and — no
session's uid being a substring of it — delivery to zero peers; the code
instead treats an `@`-free `to` as a broadcast and delivers to every
READY non-originator peer (here `zzz`). -/
theorem C2_counterexample :
    claimedResultDests exReadyBot [exReadyBot, exPeerZzz] "alice" = [] ∧
    (handle_result exEnv exReadyBot [exReadyBot, exPeerZzz] exIqAlice
        "<iq/>").forwards.map Prod.fst = [exPeerZzz] := by
  refine ⟨by decide, by decide⟩

/-- Claim C2 (amended): the normalization runs the other way round — a
destination that CONTAINS an `@` is rewritten to `{localpart}@ecouser.net`
and delivered exactly to the READY non-originator sessions whose
lowercased uid occurs in the lowercased rewritten destination (zero peers
when none matches); a non-empty destination with no `@` is delivered to
every READY non-originator session; an empty destination fails
`assert ctl_to` and is delivered to none. -/
theorem C2_amended (env : Env) (s : Session) (clients : List Session)
    (xml : XmlElem) (data : String) (t : String)
    (hdata : containsStr data errno103 = false)
    (hto : xml.get "to" = some t)
    (hde : t ≠ "de.ecorobot.net") :
    (handle_result env s clients xml data).forwards.map Prod.fst =
      if t = "" then []
      else if containsStr t "@" = true then
        clients.filter (fun c => decide (c.bumper_jid ≠ s.bumper_jid ∧
          c.state = READY ∧ uidMatches c.uid (normalizedDest t) = true))
      else
        clients.filter (fun c => decide (c.bumper_jid ≠ s.bumper_jid ∧
          c.state = READY)) := by
  have hb : ¬ (s.type = BOT ∧ xml.get "to" = some ("de.ecorobot.net" : String)) := by
    intro h
    rw [hto] at h
    exact hde (by injection h.2)
  unfold handle_result
  dsimp only
  rw [if_neg (by simp [hdata]), if_neg hb]
  simp only [hto]
  by_cases ht0 : t = ""
  · subst ht0
    rw [if_pos rfl]
    rw [if_neg (by simp)]
    rw [if_neg (by simp)]
    rfl
  · rw [if_neg ht0]
    by_cases hat : containsStr t "@" = true
    · rw [if_pos hat]
      rw [if_neg (by intro hc; rw [hat] at hc; simp at hc)]
      rw [if_pos ht0]
      dsimp only
      rw [List.nil_append]
      exact result_loop_at s clients (normalizedDest t) _ (containsStr_normalizedDest t)
    · rw [if_neg hat]
      have hatf : containsStr t "@" = false := by
        cases hv : containsStr t "@"
        · rfl
        · exact absurd hv hat
      rw [if_pos ⟨ht0, by simp [hatf]⟩]
      dsimp only
      rw [List.nil_append]
      exact result_loop_no_at s clients t _ hatf

/-- Witness for `C2_amended`: the `to="alice"` stanza from the bot reaches
exactly the READY peer `zzz`. -/
theorem C2_witness :
    (handle_result exEnv exReadyBot [exReadyBot, exPeerZzz] exIqAlice
        "<iq/>").forwards.map Prod.fst = [exPeerZzz] :=
  (C2_amended exEnv exReadyBot [exReadyBot, exPeerZzz] exIqAlice "<iq/>" "alice"
      (by decide) (by decide) (by decide)).trans (by decide)

/-! ## Claim C3 -/

/-- Claim C3 as stated is false: in the `de.ecorobot.net` broadcast case
the code loops over ALL registered sessions with no filter — the
originator itself and a non-READY (CONNECT) session both receive a copy. -/
theorem C3_counterexample :
    exReadyBot ∈ (handle_result exEnv exReadyBot [exReadyBot, exPeerConnect]
        exIqDe "<iq/>").forwards.map Prod.fst ∧
    exPeerConnect ∈ (handle_result exEnv exReadyBot [exReadyBot, exPeerConnect]
        exIqDe "<iq/>").forwards.map Prod.fst ∧
    exPeerConnect.state ≠ READY := by
  refine ⟨by decide, by decide, by decide⟩

/-- Every element of the `_handle_result` matching loop is a READY
non-originator recipient. -/
theorem mem_result_loop {s : Session} {clients : List Session} {ct rx : String}
    {p : Session × String}
    (hp : p ∈ clients.filterMap (fun c =>
        if c.bumper_jid ≠ s.bumper_jid ∧ c.state = READY then
          if ¬ containsStr ct "@" then some (c, rx)
          else if uidMatches c.uid ct then some (c, rx) else Option.none
        else Option.none)) :
    p.1.bumper_jid ≠ s.bumper_jid ∧ p.1.state = READY := by
  rcases List.mem_filterMap.mp hp with ⟨c, hc, hceq⟩
  by_cases hA : c.bumper_jid ≠ s.bumper_jid ∧ c.state = READY
  · rw [if_pos hA] at hceq
    have hc1 : p.1 = c := by
      by_cases hX : ¬ containsStr ct "@"
      · rw [if_pos hX] at hceq
        cases hceq
        rfl
      · rw [if_neg hX] at hceq
        by_cases hY : uidMatches c.uid ct
        · rw [if_pos hY] at hceq
          cases hceq
          rfl
        · rw [if_neg hY] at hceq
          cases hceq
    rw [hc1]
    exact hA
  · rw [if_neg hA] at hceq
    cases hceq

/-- Every element of the `_handle_ctl` forward loop is a READY
non-originator recipient. -/
theorem mem_ctl_loop {s : Session} {clients : List Session} {xml : XmlElem}
    {rx : String} {p : Session × String}
    (hp : p ∈ clients.filterMap (fun c =>
        if c.bumper_jid ≠ s.bumper_jid ∧ c.state = READY then
          match xml.get "to" with
          | some t =>
            if c.type = BOT ∧ t ≠ "" ∧ uidMatches c.uid t then some (c, rx)
            else Option.none
          | Option.none => Option.none
        else Option.none)) :
    p.1.bumper_jid ≠ s.bumper_jid ∧ p.1.state = READY := by
  rcases List.mem_filterMap.mp hp with ⟨c, hc, hceq⟩
  by_cases hA : c.bumper_jid ≠ s.bumper_jid ∧ c.state = READY
  · rw [if_pos hA] at hceq
    have hc1 : p.1 = c := by
      cases hgt : xml.get "to" with
      | none =>
        rw [hgt] at hceq
        dsimp only at hceq
        cases hceq
      | some t =>
        rw [hgt] at hceq
        dsimp only at hceq
        by_cases hY : c.type = BOT ∧ t ≠ "" ∧ uidMatches c.uid t
        · rw [if_pos hY] at hceq
          cases hceq
          rfl
        · rw [if_neg hY] at hceq
          cases hceq
    rw [hc1]
    exact hA
  · rw [if_neg hA] at hceq
    cases hceq

/-- Claim C3 (amended): outside the `de.ecorobot.net` broadcast, every
recipient of a stanza forwarded by `_handle_result` or `_handle_ctl` is a
READY session distinct from the originator; the broadcast itself however
is sent to EVERY registered session — the originator and non-READY
sessions included — before the filtered loop runs. -/
theorem C3_amended (env : Env) (s : Session) (clients : List Session)
    (xml : XmlElem) (data : String) :
    (¬ (s.type = BOT ∧ xml.get "to" = some "de.ecorobot.net") →
      ∀ p ∈ (handle_result env s clients xml data).forwards,
        p.1.bumper_jid ≠ s.bumper_jid ∧ p.1.state = READY) ∧
    (∀ p ∈ (handle_ctl s clients xml data).forwards,
        p.1.bumper_jid ≠ s.bumper_jid ∧ p.1.state = READY) ∧
    (s.type = BOT → xml.get "to" = some "de.ecorobot.net" →
      containsStr data errno103 = false →
      ∃ rest, (handle_result env s clients xml data).forwards.map Prod.fst
        = clients ++ rest) := by
  refine ⟨?_, ?_, ?_⟩
  · intro hnb p hp
    unfold handle_result at hp
    dsimp only at hp
    by_cases herr : containsStr data errno103 = true
    · rw [if_pos herr] at hp
      split at hp <;> simp [RouteOut.none] at hp
    · rw [if_neg herr, if_neg hnb] at hp
      cases hgt : xml.get "to" with
      | none =>
        rw [hgt] at hp
        dsimp only at hp
        simp [RouteOut.none] at hp
      | some t =>
        rw [hgt] at hp
        dsimp only at hp
        by_cases h1 : t ≠ "" ∧ ¬ containsStr t "@"
        · rw [if_pos h1] at hp
          dsimp only at hp
          rw [List.nil_append] at hp
          exact mem_result_loop hp
        · rw [if_neg h1] at hp
          by_cases h2 : t ≠ ""
          · rw [if_pos h2] at hp
            dsimp only at hp
            rw [List.nil_append] at hp
            exact mem_result_loop hp
          · rw [if_neg h2] at hp
            dsimp only at hp
            simp at hp
  · intro p hp
    have hfs : (handle_ctl s clients xml data).forwards = [] ∨
        (handle_ctl s clients xml data).forwards = clients.filterMap (fun c =>
          if c.bumper_jid ≠ s.bumper_jid ∧ c.state = READY then
            match xml.get "to" with
            | some t =>
              if c.type = BOT ∧ t ≠ "" ∧ uidMatches c.uid t then
                some (c, cleanupCtl (serialize (setFromIfAbsent xml s.bumper_jid)))
              else Option.none
            | Option.none => Option.none
          else Option.none) := by
      unfold handle_ctl
      dsimp only
      repeat' first
      | exact Or.inl rfl
      | exact Or.inr rfl
      | split
    rcases hfs with h | h
    · rw [h] at hp
      simp at hp
    · rw [h] at hp
      exact mem_ctl_loop hp
  · intro hbot hto' herr
    unfold handle_result
    dsimp only
    rw [if_neg (by simp [herr]), if_pos ⟨hbot, hto'⟩]
    simp only [hto']
    rw [if_pos ⟨by decide, by decide⟩]
    refine ⟨?rest, ?_⟩
    case rest => exact ((clients.filterMap (fun c =>
      if c.bumper_jid ≠ s.bumper_jid ∧ c.state = READY then
        if ¬ containsStr ("de.ecorobot.net" : String) "@" then
          some (c, cleanupCtl (serialize (setFromIfAbsent xml s.bumper_jid)))
        else if uidMatches c.uid "de.ecorobot.net" then
          some (c, cleanupCtl (serialize (setFromIfAbsent xml s.bumper_jid)))
        else Option.none
      else Option.none)).map Prod.fst)
    dsimp only
    rw [List.map_append]
    congr 1
    rw [List.map_map]
    have hcomp : (Prod.fst ∘ fun c : Session =>
        (c, cleanupCtl (serialize (setFromIfAbsent xml s.bumper_jid)))) = id := rfl
    rw [hcomp, List.map_id]

/-- Witness for `C3_amended`: outside the broadcast, the recipient `zzz`
of the `to="alice"` stanza is indeed a READY non-originator. -/
theorem C3_witness :
    exPeerZzz.bumper_jid ≠ exReadyBot.bumper_jid ∧ exPeerZzz.state = READY := by
  have h := (C3_amended exEnv exReadyBot [exReadyBot, exPeerZzz] exIqAlice
      "<iq/>").1 (by decide)
    (exPeerZzz, cleanupCtl (serialize (setFromIfAbsent exIqAlice
      exReadyBot.bumper_jid)))
    (by decide)
  exact h

/-! ## Claim C4 -/

/-- Claim C4: a session whose stream open recorded a non-empty `devclass`
authenticates unconditionally on any parseable SASL PLAIN payload — for
every credential store and every `use_auth` setting, the bot is
registered via `bot_add`, `success` is sent, the kind becomes BOT and the
state becomes INIT. -/
theorem C4_theorem (env : Env) (s : Session) (payload : String)
    (hdev : s.devclass ≠ "") (hst : s.state = CONNECT)
    (hp : 2 ≤ (saslParts0 payload).length) :
    (handle_sasl_auth env s payload).1.type = BOT ∧
    (handle_sasl_auth env s payload).1.state = INIT ∧
    (handle_sasl_auth env s payload).2 =
      [AuthEffect.botAdd (saslUid payload) (saslUid payload) s.devclass "atom"
         "eco-legacy",
       AuthEffect.send successMsg] := by
  unfold handle_sasl_auth
  rw [if_neg (by omega)]
  simp only [if_pos hdev]
  rw [set_state_step _ "INIT" 2 (by decide) (by simp [hst, CONNECT])]
  exact ⟨rfl, rfl, trivial⟩

/-- Witness for `C4_theorem`: the devclass-`xyz` session authenticating
with payload `\0alice\0secret`. -/
theorem C4_witness :
    (handle_sasl_auth exEnv exBotXyz exPayloadAlice).1.type = BOT ∧
    (handle_sasl_auth exEnv exBotXyz exPayloadAlice).1.state = INIT ∧
    (handle_sasl_auth exEnv exBotXyz exPayloadAlice).2 =
      [AuthEffect.botAdd (saslUid exPayloadAlice) (saslUid exPayloadAlice)
         exBotXyz.devclass "atom" "eco-legacy",
       AuthEffect.send successMsg] :=
  C4_theorem exEnv exBotXyz exPayloadAlice (by decide) (by decide) (by decide)

/-! ## Claim C5 -/

/-- Claim C5 as stated is false: for the standard NUL-delimited payload
`\0alice\0secret` the trailing field is `secret` and the credentials
store accepts `(alice, secret)` — so the claim predicts success — yet the
code consults `check_authcode` with the empty authcode (only
slash-delimited payloads ever set it), fails, sends the empty
`<response/>`, and stays in CONNECT. -/
theorem C5_counterexample :
    (exEnvAlice.check_authcode (saslUid exPayloadAlice)
        (claimedAuthcode exPayloadAlice) || !exEnvAlice.use_auth) = true ∧
    saslAuthcode exPayloadAlice = "" ∧
    (handle_sasl_auth exEnvAlice freshSession exPayloadAlice).2
      = [AuthEffect.send responseMsg] ∧
    (handle_sasl_auth exEnvAlice freshSession exPayloadAlice).1.state = CONNECT := by
  refine ⟨by decide, by decide, by decide, by decide⟩

/-- Claim C5 (amended): for a controller (empty `devclass`) in CONNECT
submitting a parseable SASL PLAIN payload, authentication succeeds iff
`check_authcode(uid, authcode)` holds or `use_auth` is false, where the
authcode is the trailing slash field when the payload is slash-delimited
and the EMPTY string otherwise (never the trailing NUL field); on success
the kind becomes CONTROLLER, `client_add` is recorded, `success` is sent
and the state becomes INIT; on failure the empty `<response/>` is sent
and the state stays CONNECT. -/
theorem C5_amended (env : Env) (s : Session) (payload : String)
    (hdev : s.devclass = "") (hst : s.state = CONNECT)
    (hp : 2 ≤ (saslParts0 payload).length) :
    ((env.check_authcode (saslUid payload) (saslAuthcode payload) ||
        !env.use_auth) = true →
      (handle_sasl_auth env s payload).1.type = CONTROLLER ∧
      (handle_sasl_auth env s payload).1.state = INIT ∧
      (handle_sasl_auth env s payload).2 =
        [AuthEffect.clientAdd (saslUid payload) "bumper" (saslResource s payload),
         AuthEffect.send successMsg]) ∧
    ((env.check_authcode (saslUid payload) (saslAuthcode payload) ||
        !env.use_auth) = false →
      (handle_sasl_auth env s payload).1.state = CONNECT ∧
      (handle_sasl_auth env s payload).1.type = s.type ∧
      (handle_sasl_auth env s payload).2 = [AuthEffect.send responseMsg]) := by
  unfold handle_sasl_auth
  rw [if_neg (by omega), if_neg (by simp [hdev])]
  constructor
  · intro hauth
    rw [if_pos hauth]
    dsimp only
    rw [set_state_step _ "INIT" 2 (by decide) (by simp [hst, CONNECT])]
    exact ⟨rfl, rfl, rfl⟩
  · intro hauth
    rw [if_neg (by simp [hauth])]
    exact ⟨hst, rfl, rfl⟩

/-- Witness for `C5_amended`: with authentication disabled the payload
`\0alice\0secret` succeeds. -/
theorem C5_witness :
    (handle_sasl_auth exEnv freshSession exPayloadAlice).1.type = CONTROLLER ∧
    (handle_sasl_auth exEnv freshSession exPayloadAlice).1.state = INIT ∧
    (handle_sasl_auth exEnv freshSession exPayloadAlice).2 =
      [AuthEffect.clientAdd (saslUid exPayloadAlice) "bumper"
         (saslResource freshSession exPayloadAlice),
       AuthEffect.send successMsg] :=
  (C5_amended exEnv freshSession exPayloadAlice rfl rfl (by decide)).1 (by decide)

/-! ## Claim C6 -/

/-- Claim C6 as stated is false: on a payload with no NUL separator the
server does NOT reply `<response/>` — the `IndexError` from
`saslauth[0].split("\x00")[1]` is swallowed and nothing at all is sent
(the session does remain in CONNECT). -/
theorem C6_counterexample :
    (handle_sasl_auth exEnv freshSession "abc").2 = [] ∧
    ¬ (AuthEffect.send responseMsg ∈ (handle_sasl_auth exEnv freshSession "abc").2) ∧
    (handle_sasl_auth exEnv freshSession "abc").1.state = CONNECT := by
  refine ⟨by decide, by decide, by decide⟩

/-- Claim C6 (amended): a SASL payload whose decoded text contains no NUL
separator aborts the handler with a logged, swallowed exception — no
stanza is sent (in particular no `<response/>`) and the session is left
entirely unchanged, hence still in CONNECT. -/
theorem C6_amended (env : Env) (s : Session) (payload : String)
    (h : nulChar ∉ payload.toList) :
    handle_sasl_auth env s payload = (s, []) := by
  have hfield : nulChar ∉ (saslSlash payload).headD [] := fun hm =>
    h (mem_of_mem_headD_splitChar hm)
  have hsplit : saslParts0 payload = [(saslSlash payload).headD []] :=
    splitChar_of_not_mem hfield
  have hlen : (saslParts0 payload).length < 2 := by
    rw [hsplit]
    simp
  unfold handle_sasl_auth
  rw [if_pos hlen]

/-- Witness for `C6_amended` at the NUL-free payload `plainuser`. -/
theorem C6_witness :
    handle_sasl_auth exEnv freshSession "plainuser" = (freshSession, []) :=
  C6_amended exEnv freshSession "plainuser" (by decide)

/-! ## Claim C7 -/

/-- Claim C7: a chunk consisting of a lone `</stream:stream>` makes the
wrapped data `<root></stream:stream></root>` fail to parse with a
mismatched-tag error (neither of the two specially recognized messages),
upon which the server, in any session state, replies `</stream:stream>`
and the session transitions to DISCONNECT. -/
theorem C7_theorem (s : Session) (emsg : String)
    (hs : s.state ≤ DISCONNECT)
    (h1 : containsStr emsg "no element found" = false)
    (h2 : containsStr emsg "not well-formed (invalid token)" = false) :
    parse_data_onParseError s "</stream:stream>" emsg
      = ({ s with state := DISCONNECT }, ["</stream:stream>"]) := by
  have hA : containsStr (mk_newdata "</stream:stream>") "<stream:stream" = false := by
    decide
  have hB : containsStr (mk_newdata "</stream:stream>") "</stream:stream>" = true := by
    decide
  have hset : set_state s "DISCONNECT" = ({ s with state := DISCONNECT }, true) := by
    rw [set_state_step s "DISCONNECT" 5 (by decide) (by exact hs)]
    rfl
  unfold parse_data_onParseError
  simp only [h1, h2, hA, hB, Bool.false_eq_true, if_false, not_true, not_false_iff,
    if_true, hset]

/-- Witness for `C7_theorem`: a READY session and expat's actual message
for `<root></stream:stream></root>`, `mismatched tag: line 1, column 8`. -/
theorem C7_witness :
    parse_data_onParseError exReadyCtrl "</stream:stream>"
        "mismatched tag: line 1, column 8"
      = ({ exReadyCtrl with state := DISCONNECT }, ["</stream:stream>"]) :=
  C7_theorem exReadyCtrl "mismatched tag: line 1, column 8" (by decide) (by decide)
    (by decide)

/-! ## Claim C8 -/

/-- Claim C8 as stated is false in its skip condition: here the new user
derived from the stanza's `to` is `fuid_123@ecouser.net` — the claim says
enrollment is skipped — yet the code tests the `fuid_`/`fusername_`
prefixes against the ADMIN user (`ownerA`), so the three enrollment
stanzas are still synthesized and sent. -/
theorem C8_counterexample :
    claimedEnrollSkip "fuid_123@ecouser.net" exEnvUuid.use_auth = true ∧
    (handle_result exEnvUuid exReadyBot [exReadyBot] exIqErr exDataErr).replies.length
      = 3 := by
  refine ⟨by decide, by decide⟩

/-- Claim C8 (amended): on a bot response containing `errno='103'` with an
`error` attribute and a non-empty `to`, the server synthesizes on the
bot's own transport, in order, AddUser, SetAC (userman/setting/clean) and
GetUserInfo — ids from three successive UUID draws, `to` the bot's JID,
`from` the admin user extracted from the permission-denied error string —
and nothing is forwarded to peers; the sequence is skipped exactly when
the ADMIN user starts with `fuid_` or `fusername_` or `use_auth` is
enabled (not when the new user does). -/
theorem C8_amended (env : Env) (s : Session) (clients : List Session)
    (xml : XmlElem) (data : String) (q c0 : XmlElem) (err t : String)
    (hdata : containsStr data errno103 = true)
    (hbot : s.type = BOT)
    (hq : xml.children.head? = some q)
    (hc0 : q.children.head? = some c0)
    (herr : c0.get "error" = some err)
    (hto : xml.get "to" = some t) (ht : t ≠ "") :
    (handle_result env s clients xml data).forwards = [] ∧
    ((startsWithStr (adminFromError err) "fuid_" = true ∨
      startsWithStr (adminFromError err) "fusername_" = true ∨
      env.use_auth = true) →
        (handle_result env s clients xml data).replies = []) ∧
    (¬ (startsWithStr (adminFromError err) "fuid_" = true ∨
        startsWithStr (adminFromError err) "fusername_" = true ∨
        env.use_auth = true) →
        (handle_result env s clients xml data).replies =
          [addUserMsg (env.uuid 0) (adminFromError err) s.bumper_jid (newUserOf t),
           setAcMsg (env.uuid 1) (adminFromError err) s.bumper_jid (newUserOf t),
           getUserInfoMsg (env.uuid 2) (adminFromError err) s.bumper_jid]) := by
  have hres : handle_result env s clients xml data
      = ⟨enroll103 env s xml (xml.get "to"), [], []⟩ := by
    unfold handle_result
    dsimp only
    rw [if_pos hdata, if_pos hbot]
  have henr : enroll103 env s xml (xml.get "to")
      = if t ≠ "" ∧ ¬ (startsWithStr (adminFromError err) "fuid_" ∨
            startsWithStr (adminFromError err) "fusername_" ∨ env.use_auth) then
          [addUserMsg (env.uuid 0) (adminFromError err) s.bumper_jid (newUserOf t),
           setAcMsg (env.uuid 1) (adminFromError err) s.bumper_jid (newUserOf t),
           getUserInfoMsg (env.uuid 2) (adminFromError err) s.bumper_jid]
        else [] := by
    unfold enroll103
    simp only [hq, hc0, herr, hto]
  refine ⟨by rw [hres], ?_, ?_⟩
  · intro hskip
    rw [hres]
    show enroll103 env s xml (xml.get "to") = []
    rw [henr, if_neg]
    intro hcond
    exact hcond.2 (by simpa using hskip)
  · intro hskip
    rw [hres]
    show enroll103 env s xml (xml.get "to") =
      [addUserMsg (env.uuid 0) (adminFromError err) s.bumper_jid (newUserOf t),
       setAcMsg (env.uuid 1) (adminFromError err) s.bumper_jid (newUserOf t),
       getUserInfoMsg (env.uuid 2) (adminFromError err) s.bumper_jid]
    rw [henr, if_pos]
    exact ⟨ht, by simpa using hskip⟩

/-- Witness for `C8_amended`: the `ownerA` permission-denied response with
`use_auth` disabled enrolls the `fuid_123@ecouser.net` user. -/
theorem C8_witness :
    (handle_result exEnvUuid exReadyBot [] exIqErr exDataErr).forwards = [] ∧
    (handle_result exEnvUuid exReadyBot [] exIqErr exDataErr).replies =
      [addUserMsg (exEnvUuid.uuid 0)
         (adminFromError "permission denied, please contact ownerA")
         exReadyBot.bumper_jid (newUserOf "fuid_123@ecouser.net"),
       setAcMsg (exEnvUuid.uuid 1)
         (adminFromError "permission denied, please contact ownerA")
         exReadyBot.bumper_jid (newUserOf "fuid_123@ecouser.net"),
       getUserInfoMsg (exEnvUuid.uuid 2)
         (adminFromError "permission denied, please contact ownerA")
         exReadyBot.bumper_jid] := by
  have h := C8_amended exEnvUuid exReadyBot [] exIqErr exDataErr exQueryErr exCtlErr
      "permission denied, please contact ownerA" "fuid_123@ecouser.net"
      (by decide) (by decide) rfl rfl (by decide) (by decide) (by decide)
  exact ⟨h.1, h.2.2 (by decide)⟩

/-! ## Claim C9 -/

/-- Claim C9 as stated is false in its non-forwarding part: the
`rl.ecorobot.net` acknowledgement branch has no early return, so the
stanza still reaches the forward loop — here a READY bot whose uid `rl`
occurs in `rl.ecorobot.net` receives a copy (the reply to the originator
does happen as claimed). -/
theorem C9_counterexample :
    (handle_ctl exCtrl42 [exCtrl42, exRlBot] exIqRl exDataRl).replies
      = [rlAck (some "q1") "user42" "mobile"] ∧
    (handle_ctl exCtrl42 [exCtrl42, exRlBot] exIqRl exDataRl).forwards.map
        Prod.fst
      = [exRlBot] ∧
    exRlBot.bumper_jid ≠ exCtrl42.bumper_jid := by
  refine ⟨by decide, by decide, by decide⟩

/-- Claim C9 (amended): a READY controller `com:sf` set directed at
`rl.ecorobot.net` is acknowledged to the originator with an empty result
iq from `rl.ecorobot.net`, and is additionally forwarded to exactly the
READY bot peers (other than the originator) whose lowercased uid occurs
in `rl.ecorobot.net` — in particular it reaches no peer only when no such
bot exists. -/
theorem C9_amended (s : Session) (clients : List Session) (xml : XmlElem)
    (data : String) (q : XmlElem)
    (hctl : s.type = CONTROLLER)
    (h1 : containsStr data "roster" = false)
    (h2 : containsStr data "disco#items" = false)
    (h3 : containsStr data "disco#info" = false)
    (hty : xml.get "type" = some "set")
    (hsf : containsStr data "com:sf" = true)
    (hto : xml.get "to" = some "rl.ecorobot.net")
    (hq : xml.children.head? = some q) :
    (handle_ctl s clients xml data).replies
      = [rlAck (xml.get "id") s.uid s.clientresource] ∧
    (handle_ctl s clients xml data).forwards.map Prod.fst
      = clients.filter (fun c =>
          decide ((c.bumper_jid ≠ s.bumper_jid ∧ c.state = READY) ∧
            c.type = BOT ∧ uidMatches c.uid "rl.ecorobot.net" = true)) := by
  have habort : ctlAdminAbort s q = false := by
    unfold ctlAdminAbort
    cases hqc : q.children.head? with
    | none => rfl
    | some ctl =>
      dsimp only
      cases hga : ctl.get "admin" with
      | none => rfl
      | some a => simp [hctl, CONTROLLER, BOT]
  have hctlres : handle_ctl s clients xml data =
      ⟨[rlAck (xml.get "id") s.uid s.clientresource],
       clients.filterMap (fun c =>
         if c.bumper_jid ≠ s.bumper_jid ∧ c.state = READY then
           if c.type = BOT ∧ ("rl.ecorobot.net" : String) ≠ "" ∧
               uidMatches c.uid "rl.ecorobot.net" then
             some (c, cleanupCtl (serialize (setFromIfAbsent xml s.bumper_jid)))
           else Option.none
         else Option.none),
       []⟩ := by
    unfold handle_ctl
    rw [if_neg (by simp [h1]), if_neg (by simp [h2]), if_neg (by simp [h3])]
    simp only [hq]
    rw [if_neg (by simp [habort])]
    rw [if_pos ⟨hty, hsf, hto⟩]
    simp only [hto]
  constructor
  · rw [hctlres]
  · rw [hctlres]
    show (clients.filterMap _).map Prod.fst = _
    rw [List.filterMap_congr (g := fun c =>
      if (c.bumper_jid ≠ s.bumper_jid ∧ c.state = READY) ∧
          c.type = BOT ∧ uidMatches c.uid "rl.ecorobot.net" = true then
        some (c, cleanupCtl (serialize (setFromIfAbsent xml s.bumper_jid)))
      else Option.none)]
    · exact map_fst_filterMap_guard clients _
    · intro c _
      by_cases hab : c.bumper_jid ≠ s.bumper_jid ∧ c.state = READY
      · by_cases hcb : c.type = BOT ∧ uidMatches c.uid "rl.ecorobot.net" = true
        · rw [if_pos hab, if_pos ⟨hcb.1, by decide, hcb.2⟩, if_pos ⟨hab, hcb⟩]
        · rw [if_pos hab, if_neg (fun hc => hcb ⟨hc.1, hc.2.2⟩),
            if_neg (fun hc => hcb hc.2)]
      · rw [if_neg hab, if_neg (fun hc => hab hc.1)]

/-- Witness for `C9_amended`: the concrete `user42` controller with the
`rl` bot — the ack goes back and the bot receives the forward. -/
theorem C9_witness :
    (handle_ctl exCtrl42 [exCtrl42, exRlBot] exIqRl exDataRl).forwards.map
        Prod.fst
      = [exRlBot] :=
  ((C9_amended exCtrl42 [exCtrl42, exRlBot] exIqRl exDataRl exQueryRl
      (by decide) (by decide) (by decide) (by decide) (by decide) (by decide)
      (by decide) rfl).2).trans (by decide)

/-! ## Claim C10 -/

/-- Claim C10: `_handle_iq` dispatch is a function of the stanza alone
(`iqBranch` takes no session argument), and a freshly connected session —
state CONNECT, kind UNKNOWN, empty uid, no SASL exchange — receiving
`<iq id="x" type="set"><session/></iq>` is dispatched to the session
handler, jumps straight to READY (skipping INIT and BIND) and is sent
`<iq type="result" id="x" />`, for every environment, peer set, and raw
text. -/
theorem C10_theorem (env : Env) (clients : List Session) (data : String) :
    freshSession.state = CONNECT ∧ freshSession.type = UNKNOWN ∧
    freshSession.uid = "" ∧
    iqBranch exIqSession = IqBranch.sessionB ∧
    (handle_iq env freshSession clients exIqSession data).1.state = READY ∧
    (handle_iq env freshSession clients exIqSession data).2.replies
      = ["<iq type=\"result\" id=\"x\" />"] := by
  exact ⟨rfl, rfl, rfl, by decide, rfl, rfl⟩

end Bumper
